import Mathlib

/-!
Verification development for the BT Locate subsystem (utils/bt_locate.py):
RPA resolution, MAC normalization, target matching, distance estimation,
and the locate-session trail/queue state machine.

Python strings are modelled as lists of characters, bytes objects as lists
of natural numbers below 256, and floats as exact rationals (reals where a
transcendental power function is required).  Fallible operations that can
raise in Python are modelled with Except.
-/

set_option maxRecDepth 40000

deriving instance DecidableEq for Except

/-- Python whitespace characters recognised by str.strip(). -/
def isPySpace (c : Char) : Bool :=
  c == ' ' || c == '\t' || c == '\n' || c == '\r' || c == '\x0b' || c == '\x0c'

/-- Model of Python str.strip(): drop whitespace from both ends. -/
def pyStrip (s : List Char) : List Char :=
  ((s.dropWhile isPySpace).reverse.dropWhile isPySpace).reverse

/-- Python truthiness of an optional string: None and the empty string are falsy. -/
def pyTruthy : Option (List Char) → Bool
  | none => false
  | some s => !s.isEmpty

/-- Python truthiness of an optional bytes value: None and empty bytes are falsy. -/
def pyTruthyB : Option (List Nat) → Bool
  | none => false
  | some b => !b.isEmpty

/-- The uppercase hexadecimal alphabet used by the normalizer. -/
def HEX_UPPER : List Char := '0' :: '1' :: '2' :: '3' :: '4' :: '5' :: '6' :: '7' ::
  '8' :: '9' :: 'A' :: 'B' :: 'C' :: 'D' :: 'E' :: 'F' :: []

/-- Value of a single hexadecimal digit character, if it is one. -/
def hexVal? (c : Char) : Option Nat :=
  if '0' ≤ c ∧ c ≤ '9' then some (c.toNat - '0'.toNat)
  else if 'a' ≤ c ∧ c ≤ 'f' then some (c.toNat - 'a'.toNat + 10)
  else if 'A' ≤ c ∧ c ≤ 'F' then some (c.toNat - 'A'.toNat + 10)
  else none

/-- Accumulate the value of a nonempty run of hexadecimal digits. -/
def hexDigitsVal (l : List Char) : Option Nat :=
  if l = [] then none
  else l.foldl (fun acc c =>
    match acc, hexVal? c with
    | some a, some d => some (16 * a + d)
    | _, _ => none) (some 0)

/-- Digits of a base-16 integer literal, tolerating Python's 0x prefix. -/
def hexNumBody : List Char → Option Nat
  | '0' :: 'x' :: rest => hexDigitsVal rest
  | '0' :: 'X' :: rest => hexDigitsVal rest
  | l => hexDigitsVal l

/-- Model of Python int(s, 16): optional sign, optional 0x prefix, hex digits. -/
def pyIntHex : List Char → Option Int
  | '+' :: rest => (hexNumBody rest).map (fun n => (n : Int))
  | '-' :: rest => (hexNumBody rest).map (fun n => -(n : Int))
  | l => (hexNumBody l).map (fun n => (n : Int))

/-- Python's arithmetic right shift on integers: floor division by a power of two. -/
def pyShiftRight (v : Int) (k : Nat) : Int := Int.fdiv v (2 ^ k)

/-- Model of Python str.split(sep) for a single-character separator:
the empty string splits to one empty part. -/
def pySplitColon : List Char → List (List Char)
  | [] => [[]]
  | c :: rest =>
    if c = ':' then [] :: pySplitColon rest
    else
      match pySplitColon rest with
      | [] => [[c]]
      | p :: ps => (c :: p) :: ps

/-- The prefix of a string before its first colon (split with maxsplit one, index zero). -/
def takeBeforeColon (s : List Char) : List Char := s.takeWhile (fun c => c != ':')

/-- Consecutive pairs of characters, as produced by the raw-hex regrouping loop. -/
def charPairs : List Char → List (List Char)
  | c1 :: c2 :: rest => [c1, c2] :: charPairs rest
  | [c] => [[c]]
  | [] => []

/-- Strict-MAC shape test used by the normalizer: exactly six parts, each two
uppercase hexadecimal digits. -/
def strictMacParts (parts : List (List Char)) : Bool :=
  decide (parts.length = 6) &&
    parts.all (fun p => decide (p.length = 2) && p.all (fun c => decide (c ∈ HEX_UPPER)))

/-- Model of utils.bt_locate normalize mac: uppercase, unify separators, regroup a
raw 12-hex-digit form, and return the colon-joined parts when the result is a strict
six-octet MAC, otherwise the cleaned original text. -/
def normalize_mac (address : Option (List Char)) : Option (List Char) :=
  match address with
  | none => none
  | some a =>
    if a = [] then none
    else
      let text0 := ((pyStrip a).map Char.toUpper).map (fun c => if c = '-' then ':' else c)
      if text0 = [] then none
      else
        let raw := text0.filter (fun c => HEX_UPPER.contains c)
        let text := if ':' ∉ text0 ∧ raw.length = 12
          then List.intercalate [':'] (charPairs raw) else text0
        let parts := pySplitColon text
        if strictMacParts parts then some (List.intercalate [':'] parts)
        else some text

/-- Model of the RPA shape classifier: normalize, parse the leading colon-separated
chunk as a base-16 integer, and test whether its arithmetic right shift by six is one. -/
def address_looks_like_rpa (address : Option (List Char)) : Bool :=
  match normalize_mac address with
  | none => false
  | some t =>
    if t = [] then false
    else
      match pyIntHex (takeBeforeColon t) with
      | none => false
      | some v => decide (pyShiftRight v 6 = 1)

/-! ## AES-128 (single-block ECB encryption)

Model of the AES primitive that the cryptography package provides to the
RPA resolver.  Bytes are natural numbers below 256; the state and the key
are flat 16-byte lists in standard column-major AES order. -/

/-- The AES forward S-box. -/
def sboxTable : List Nat := [
  0x63, 0x7c, 0x77, 0x7b, 0xf2, 0x6b, 0x6f, 0xc5, 0x30, 0x01, 0x67, 0x2b, 0xfe, 0xd7, 0xab, 0x76,
  0xca, 0x82, 0xc9, 0x7d, 0xfa, 0x59, 0x47, 0xf0, 0xad, 0xd4, 0xa2, 0xaf, 0x9c, 0xa4, 0x72, 0xc0,
  0xb7, 0xfd, 0x93, 0x26, 0x36, 0x3f, 0xf7, 0xcc, 0x34, 0xa5, 0xe5, 0xf1, 0x71, 0xd8, 0x31, 0x15,
  0x04, 0xc7, 0x23, 0xc3, 0x18, 0x96, 0x05, 0x9a, 0x07, 0x12, 0x80, 0xe2, 0xeb, 0x27, 0xb2, 0x75,
  0x09, 0x83, 0x2c, 0x1a, 0x1b, 0x6e, 0x5a, 0xa0, 0x52, 0x3b, 0xd6, 0xb3, 0x29, 0xe3, 0x2f, 0x84,
  0x53, 0xd1, 0x00, 0xed, 0x20, 0xfc, 0xb1, 0x5b, 0x6a, 0xcb, 0xbe, 0x39, 0x4a, 0x4c, 0x58, 0xcf,
  0xd0, 0xef, 0xaa, 0xfb, 0x43, 0x4d, 0x33, 0x85, 0x45, 0xf9, 0x02, 0x7f, 0x50, 0x3c, 0x9f, 0xa8,
  0x51, 0xa3, 0x40, 0x8f, 0x92, 0x9d, 0x38, 0xf5, 0xbc, 0xb6, 0xda, 0x21, 0x10, 0xff, 0xf3, 0xd2,
  0xcd, 0x0c, 0x13, 0xec, 0x5f, 0x97, 0x44, 0x17, 0xc4, 0xa7, 0x7e, 0x3d, 0x64, 0x5d, 0x19, 0x73,
  0x60, 0x81, 0x4f, 0xdc, 0x22, 0x2a, 0x90, 0x88, 0x46, 0xee, 0xb8, 0x14, 0xde, 0x5e, 0x0b, 0xdb,
  0xe0, 0x32, 0x3a, 0x0a, 0x49, 0x06, 0x24, 0x5c, 0xc2, 0xd3, 0xac, 0x62, 0x91, 0x95, 0xe4, 0x79,
  0xe7, 0xc8, 0x37, 0x6d, 0x8d, 0xd5, 0x4e, 0xa9, 0x6c, 0x56, 0xf4, 0xea, 0x65, 0x7a, 0xae, 0x08,
  0xba, 0x78, 0x25, 0x2e, 0x1c, 0xa6, 0xb4, 0xc6, 0xe8, 0xdd, 0x74, 0x1f, 0x4b, 0xbd, 0x8b, 0x8a,
  0x70, 0x3e, 0xb5, 0x66, 0x48, 0x03, 0xf6, 0x0e, 0x61, 0x35, 0x57, 0xb9, 0x86, 0xc1, 0x1d, 0x9e,
  0xe1, 0xf8, 0x98, 0x11, 0x69, 0xd9, 0x8e, 0x94, 0x9b, 0x1e, 0x87, 0xe9, 0xce, 0x55, 0x28, 0xdf,
  0x8c, 0xa1, 0x89, 0x0d, 0xbf, 0xe6, 0x42, 0x68, 0x41, 0x99, 0x2d, 0x0f, 0xb0, 0x54, 0xbb, 0x16]

/-- S-box lookup on a byte. -/
def sb (b : Nat) : Nat := sboxTable.getD b 0

/-- AES round constants for the ten key-expansion rounds. -/
def rconTable : List Nat := [0x01, 0x02, 0x04, 0x08, 0x10, 0x20, 0x40, 0x80, 0x1b, 0x36]

/-- Bytewise exclusive or of two byte strings. -/
def xorBytes (a b : List Nat) : List Nat := List.zipWith (fun x y => x ^^^ y) a b

/-- Rotate a four-byte word left by one byte. -/
def rotWord : List Nat → List Nat
  | [] => []
  | a :: rest => rest ++ [a]

/-- Apply the S-box to each byte of a word. -/
def subWord (w : List Nat) : List Nat := w.map sb

/-- One key-expansion step: append the next four-byte word. -/
def expandStep (ws : List (List Nat)) : List (List Nat) :=
  let i := ws.length
  let prev := (ws.getLast?).getD [0, 0, 0, 0]
  let w4 := ws.getD (i - 4) [0, 0, 0, 0]
  let temp := if i % 4 = 0
    then xorBytes (subWord (rotWord prev)) [rconTable.getD (i / 4 - 1) 0, 0, 0, 0]
    else prev
  ws ++ [xorBytes w4 temp]

/-- AES-128 key schedule: the 44 four-byte words expanded from a 16-byte key. -/
def keySchedule (key : List Nat) : List (List Nat) :=
  (List.range 40).foldl (fun ws _ => expandStep ws)
    [key.take 4, (key.drop 4).take 4, (key.drop 8).take 4, key.drop 12]

/-- The 16-byte round key for a given round index. -/
def roundKey (key : List Nat) (i : Nat) : List Nat :=
  (((keySchedule key).drop (4 * i)).take 4).flatten

/-- Multiplication by x in GF(2^8) modulo the AES polynomial. -/
def xtime (b : Nat) : Nat := ((b <<< 1) ^^^ (if 128 ≤ b then 0x1B else 0)) % 256

/-- The AES ShiftRows permutation on a column-major flat state. -/
def shiftRows (s : List Nat) : List Nat :=
  (List.range 16).map (fun i =>
    let r := i % 4
    let c := i / 4
    s.getD (r + 4 * ((c + r) % 4)) 0)

/-- MixColumns on a single four-byte column. -/
def mixColumn : List Nat → List Nat
  | [a0, a1, a2, a3] =>
    [ xtime a0 ^^^ (xtime a1 ^^^ a1) ^^^ a2 ^^^ a3,
      a0 ^^^ xtime a1 ^^^ (xtime a2 ^^^ a2) ^^^ a3,
      a0 ^^^ a1 ^^^ xtime a2 ^^^ (xtime a3 ^^^ a3),
      (xtime a0 ^^^ a0) ^^^ a1 ^^^ a2 ^^^ xtime a3 ]
  | l => l

/-- MixColumns on the full state. -/
def mixColumns (s : List Nat) : List Nat :=
  ((List.range 4).map (fun c => mixColumn ((s.drop (4 * c)).take 4))).flatten

/-- One full AES round: SubBytes, ShiftRows, MixColumns, AddRoundKey. -/
def aesRound (rk s : List Nat) : List Nat :=
  xorBytes (mixColumns (shiftRows (s.map sb))) rk

/-- The final AES round, without MixColumns. -/
def aesFinalRound (rk s : List Nat) : List Nat :=
  xorBytes (shiftRows (s.map sb)) rk

/-- AES-128 encryption of a single 16-byte block under a 16-byte key. -/
def aes128Encrypt (key pt : List Nat) : List Nat :=
  let s0 := xorBytes pt (roundKey key 0)
  let s9 := (List.range 9).foldl (fun s i => aesRound (roundKey key (i + 1)) s) s0
  aesFinalRound (roundKey key 10) s9

/-! ## RPA resolution -/

/-- Hex decoding in the style of Python bytes.fromhex: an even run of hexadecimal
digits decodes to bytes, anything else raises. -/
def bytesFromHex : List Char → Option (List Nat)
  | [] => some []
  | [_] => none
  | c1 :: c2 :: rest =>
    match hexVal? c1, hexVal? c2, bytesFromHex rest with
    | some h, some l, some bs => some ((16 * h + l) :: bs)
    | _, _, _ => none

/-- Model of resolve_rpa.  The AES primitive is taken to be importable, so the
import-failure fallback path is not represented.  An address whose hex decoding
fails raises ValueError (an error result), as does constructing the AES cipher
with a key that is not 16 bytes; the length and RPA-bit checks return false. -/
def resolve_rpa (irk : List Nat) (address : List Char) : Except Unit Bool :=
  match bytesFromHex (address.filter (fun c => !(c == ':' || c == '-'))) with
  | none => .error ()
  | some addr_bytes =>
    if addr_bytes.length ≠ 6 then .ok false
    else if (addr_bytes.getD 0 0) >>> 6 ≠ 1 then .ok false
    else if irk.length ≠ 16 then .error ()
    else
      let prand := addr_bytes.take 3
      let expected_hash := addr_bytes.drop 3
      let encrypted := aes128Encrypt irk (List.replicate 13 0 ++ prand)
      .ok (((encrypted.drop 13).take 3) == expected_hash)

/-! ## Target specification and matching -/

/-- Model of the observed-device record consumed from the scanner aggregator.
Fields that the matcher reads through getattr with a default are optional. -/
structure BTDeviceAggregate where
  device_id : List Char
  address : Option (List Char) := none
  name : Option (List Char) := none
  device_key : Option (List Char) := none
  payload_fingerprint_id : Option (List Char) := none
  payload_fingerprint_stability : Option ℚ := none
  rssi_current : Option Int := none
deriving DecidableEq

/-- Model of the LocateTarget dataclass (identifier fields only; the cached IRK
slots are an optimization represented by the pure parse below). -/
structure LocateTarget where
  mac_address : Option (List Char) := none
  name_pattern : Option (List Char) := none
  irk_hex : Option (List Char) := none
  device_id : Option (List Char) := none
  device_key : Option (List Char) := none
  fingerprint_id : Option (List Char) := none
  known_name : Option (List Char) := none
  known_manufacturer : Option (List Char) := none
  last_known_rssi : Option Int := none
deriving DecidableEq

/-- Pure semantics of the cached IRK parse: hex-decode the target IRK and keep
it only when it is exactly 16 bytes. -/
def LocateTarget.getIrkBytes (t : LocateTarget) : Option (List Nat) :=
  match t.irk_hex with
  | none => none
  | some h =>
    if h.isEmpty then none
    else
      match bytesFromHex h with
      | none => none
      | some b => if b.length = 16 then some b else none

/-- Rule 1: stable device key exact equality. -/
def matchDeviceKey (t : LocateTarget) (d : BTDeviceAggregate) : Bool :=
  pyTruthy t.device_key && decide (d.device_key = t.device_key)

/-- Rule 2: device identifier exact equality. -/
def matchDeviceId (t : LocateTarget) (d : BTDeviceAggregate) : Bool :=
  pyTruthy t.device_id && decide (t.device_id = some d.device_id)

/-- Everything before the last colon of a string (rsplit with maxsplit one, index zero). -/
def dropAfterLastColon (s : List Char) : List Char :=
  if s.contains ':' then ((s.reverse.dropWhile (fun c => c != ':')).drop 1).reverse else s

/-- Rule 3: the device-identifier address portion (identifier minus its trailing
colon-suffix) equals the observed address, case-insensitively. -/
def matchDeviceIdAddr (t : LocateTarget) (d : BTDeviceAggregate) : Bool :=
  match t.device_id with
  | none => false
  | some k =>
    !k.isEmpty && k.contains ':' &&
      (let part := (dropAfterLastColon k).map Char.toUpper
       let dev_addr := (d.address.getD []).map Char.toUpper
       !part.isEmpty && decide (dev_addr = part))

/-- Rule 4: normalized MAC equality. -/
def matchMac (t : LocateTarget) (d : BTDeviceAggregate) : Bool :=
  pyTruthy t.mac_address &&
    (match normalize_mac d.address, normalize_mac t.mac_address with
     | some da, some ta => !da.isEmpty && !ta.isEmpty && decide (da = ta)
     | _, _ => false)

/-- A strong identifier on the target: device id, device key, MAC, or known name. -/
def strongIdentifier (t : LocateTarget) : Bool :=
  pyTruthy t.device_id || pyTruthy t.device_key || pyTruthy t.mac_address ||
    pyTruthy t.known_name

/-- The fingerprint stability threshold used by the matcher. -/
def FP_STABILITY_THRESHOLD : ℚ := mkRat 35 100

/-- Rule 5: payload-fingerprint equality, gated by the stability threshold
unless the target carries a strong identifier. -/
def matchFingerprint (t : LocateTarget) (d : BTDeviceAggregate) : Bool :=
  pyTruthy t.fingerprint_id &&
    (match d.payload_fingerprint_id with
     | none => false
     | some fp =>
       !fp.isEmpty && decide (t.fingerprint_id = some fp) &&
         (decide (FP_STABILITY_THRESHOLD ≤ d.payload_fingerprint_stability.getD 0) ||
           strongIdentifier t))

/-- Rule 6: RPA cryptographic resolution, attempted only when the target has
an IRK and the observed address has RPA shape; a resolution error propagates. -/
def matchIrk (t : LocateTarget) (d : BTDeviceAggregate)
    (irk_bytes : Option (List Nat)) : Except Unit Bool :=
  if pyTruthy t.irk_hex && pyTruthy d.address && address_looks_like_rpa d.address then
    let irk := if pyTruthyB irk_bytes then irk_bytes else t.getIrkBytes
    if pyTruthyB irk then resolve_rpa (irk.getD []) (d.address.getD [])
    else .ok false
  else .ok false

/-- Rule 7: case-insensitive name-pattern substring match. -/
def matchName (t : LocateTarget) (d : BTDeviceAggregate) : Bool :=
  pyTruthy t.name_pattern && pyTruthy d.name &&
    decide ((t.name_pattern.getD []).map Char.toLower <:+:
      (d.name.getD []).map Char.toLower)

/-- Rule 8: loose known-name match (equality or either containing the other). -/
def matchKnownName (t : LocateTarget) (d : BTDeviceAggregate) : Bool :=
  pyTruthy t.known_name && pyTruthy d.name &&
    (let tn := (pyStrip (t.known_name.getD [])).map Char.toLower
     let dn := (pyStrip (d.name.getD [])).map Char.toLower
     !tn.isEmpty && (decide (tn = dn) || decide (tn <:+: dn) || decide (dn <:+: tn)))

/-- Model of LocateTarget.matches: the fixed-precedence cascade, short-circuiting
on the first rule that fires; an exception from RPA resolution propagates. -/
def LocateTarget.matches (t : LocateTarget) (d : BTDeviceAggregate)
    (irk_bytes : Option (List Nat) := none) : Except Unit Bool :=
  if matchDeviceKey t d then .ok true
  else if matchDeviceId t d then .ok true
  else if matchDeviceIdAddr t d then .ok true
  else if matchMac t d then .ok true
  else if matchFingerprint t d then .ok true
  else
    match matchIrk t d irk_bytes with
    | .error e => .error e
    | .ok true => .ok true
    | .ok false =>
      if matchName t d then .ok true
      else if matchKnownName t d then .ok true
      else .ok false

/-! ## Environment and distance estimation -/

/-- RF propagation environment presets, each carrying its path-loss exponent. -/
inductive Environment where
  | FREE_SPACE
  | OUTDOOR
  | INDOOR
  | CUSTOM
deriving DecidableEq

/-- The numeric enum value of each preset; CUSTOM carries zero and expects a
user-provided exponent. -/
def Environment.value : Environment → ℚ
  | .FREE_SPACE => 2
  | .OUTDOOR => mkRat 11 5
  | .INDOOR => 3
  | .CUSTOM => 0

/-- The log-distance path-loss estimator: exponent and reference RSSI at one meter. -/
structure DistanceEstimator where
  n : ℚ
  rssi_at_1m : Int := -59
deriving DecidableEq

/-- Model of DistanceEstimator.estimate: zero for non-negative RSSI or a
degenerate exponent, otherwise ten to the power of the scaled RSSI deficit. -/
noncomputable def DistanceEstimator.estimate (self : DistanceEstimator) (rssi : Int) : ℝ :=
  if 0 ≤ rssi ∨ self.n ≤ 0 then 0
  else (10 : ℝ) ^ ((((self.rssi_at_1m - rssi : Int) : ℝ)) / (10 * (self.n : ℝ)))

/-- Model of DistanceEstimator.proximity_band. -/
noncomputable def proximityBand (distance : ℝ) : String :=
  if distance ≤ 1 then "IMMEDIATE"
  else if distance ≤ 5 then "NEAR"
  else "FAR"

/-! ## Detection points, trail, queue and session state -/

/-- Maximum trail points to retain. -/
def MAX_TRAIL_POINTS : Nat := 500

/-- Capacity of the bounded SSE event queue. -/
def EVENT_QUEUE_MAXSIZE : Nat := 500

/-- EMA smoothing factor for RSSI. -/
def EMA_ALPHA : ℚ := mkRat 3 10

/-- One EMA step: seed with the first RSSI, then blend. -/
def emaNext (prev : Option ℚ) (rssi : Int) : ℚ :=
  match prev with
  | none => (rssi : ℚ)
  | some e => EMA_ALPHA * (rssi : ℚ) + (1 - EMA_ALPHA) * e

/-- A single GPS-tagged BLE detection. -/
structure DetectionPoint where
  timestamp : List Char
  rssi : Int
  rssi_ema : ℚ
  estimated_distance : ℝ
  proximity_band : String
  lat : Option ℚ := none
  lon : Option ℚ := none
  gps_accuracy : Option ℚ := none
  rpa_resolved : Bool := false

/-- A detection event as pushed onto the SSE queue. -/
structure DetectionEvent where
  ev_type : String := "detection"
  data : DetectionPoint
  device_name : Option (List Char)
  device_address : Option (List Char)

/-- Model of the locate-session state guarded by the session mutex, plus the
session counters and configuration. -/
structure SessionState where
  target : LocateTarget
  environment : Environment
  fallback_lat : Option ℚ := none
  fallback_lon : Option ℚ := none
  estimator : DistanceEstimator
  trail : List DetectionPoint := []
  rssi_ema : Option ℚ := none
  event_queue : List DetectionEvent := []
  active : Bool := false
  started_at : Option (List Char) := none
  detection_count : Nat := 0
  last_detection : Option (List Char) := none
  callback_call_count : Nat := 0
  poll_count : Nat := 0

/-- The path-loss exponent chosen by the session constructor: the custom value
when the environment is CUSTOM and the value is truthy (present and nonzero),
otherwise the preset enum value. -/
def initPathLossExponent (environment : Environment) (custom_exponent : Option ℚ) : ℚ :=
  match custom_exponent with
  | some c => if environment = Environment.CUSTOM ∧ c ≠ 0 then c else environment.value
  | none => environment.value

/-- Model of the LocateSession constructor: it accepts every configuration
(it never raises) and builds the estimator from the chosen exponent. -/
def sessionInit (target : LocateTarget) (environment : Environment)
    (custom_exponent : Option ℚ := none) (fallback_lat : Option ℚ := none)
    (fallback_lon : Option ℚ := none) : SessionState :=
  { target := target
    environment := environment
    fallback_lat := fallback_lat
    fallback_lon := fallback_lon
    estimator := { n := initPathLossExponent environment custom_exponent } }

/-- The trail append with FIFO cap: append, then keep only the newest
MAX_TRAIL_POINTS entries when the cap is exceeded. -/
def trailAppend (trail : List DetectionPoint) (point : DetectionPoint) :
    List DetectionPoint :=
  let t := trail ++ [point]
  if MAX_TRAIL_POINTS < t.length then t.drop (t.length - MAX_TRAIL_POINTS) else t

/-- The non-blocking queue push: place the event at the tail when below
capacity, otherwise drop the oldest queued event first.  Models the
put_nowait call with its queue-Full fallback of get_nowait then put_nowait;
both primitives return immediately, so the push never waits. -/
def queuePushDropOldest (q : List DetectionEvent) (event : DetectionEvent) :
    List DetectionEvent :=
  if q.length < EVENT_QUEUE_MAXSIZE then q ++ [event]
  else q.drop 1 ++ [event]

/-- The detection point constructed by one record-detection call. -/
noncomputable def mkDetectionPoint (s : SessionState) (rssi : Int) (ts : List Char)
    (lat lon acc : Option ℚ) (rpa_resolved : Bool) : DetectionPoint :=
  let distance := s.estimator.estimate rssi
  { timestamp := ts
    rssi := rssi
    rssi_ema := emaNext s.rssi_ema rssi
    estimated_distance := distance
    proximity_band := proximityBand distance
    lat := lat
    lon := lon
    gps_accuracy := acc
    rpa_resolved := rpa_resolved }

/-- Model of the state mutation performed by one record-detection call: update
the EMA, append the GPS-tagged point to the capped trail, bump the detection
counter and timestamp, and push the event onto the bounded queue.  The GPS tag
and the RPA confirmation are computed from external collaborators before the
session mutex is taken and enter here as arguments. -/
noncomputable def recordDetection (s : SessionState) (device : BTDeviceAggregate)
    (rssi : Int) (ts : List Char) (lat lon acc : Option ℚ) (rpa_resolved : Bool) :
    SessionState :=
  let point := mkDetectionPoint s rssi ts lat lon acc rpa_resolved
  { s with
    rssi_ema := some (emaNext s.rssi_ema rssi)
    trail := trailAppend s.trail point
    detection_count := s.detection_count + 1
    last_detection := some ts
    event_queue := queuePushDropOldest s.event_queue
      { data := point, device_name := device.name, device_address := device.address } }

/-- Model of LocateSession.clear_trail: empty the trail and reset the
detection counter, under the session mutex. -/
def clearTrail (s : SessionState) : SessionState :=
  { s with trail := [], detection_count := 0 }

/-- Model of LocateSession.set_environment: recompute the exponent and replace
the estimator, leaving the trail and counters alone. -/
def setEnvironment (s : SessionState) (environment : Environment)
    (custom_exponent : Option ℚ) : SessionState :=
  { s with
    environment := environment
    estimator := { n := initPathLossExponent environment custom_exponent } }

/-! ## Lock-ordering traces

The scanner and GPS collaborators are external; what the deadlock argument
needs is only the order in which each code path touches the external scanner
and the session mutex.  Each path below is embedded as the exact sequence of
those touches, read off the source. -/

/-- The observable lock/collaborator actions of the session code paths. -/
inductive LockAction where
  | queryGpsPosition
  | scannerGetDevices
  | evalTargetMatch
  | scannerIsScanning
  | scannerDeviceCount
  | scannerCallbackCheck
  | scannerStartScan
  | acquireSessionLock
  | releaseSessionLock
  | queueEventPush
deriving DecidableEq

/-- Actions that query or drive the external scanner. -/
def LockAction.isScannerOp : LockAction → Bool
  | .scannerGetDevices => true
  | .scannerIsScanning => true
  | .scannerDeviceCount => true
  | .scannerCallbackCheck => true
  | .scannerStartScan => true
  | _ => false

/-- The debug device sample: a scanner device query followed by target-match
evaluation over the sampled devices. -/
def debugSampleTrace : List LockAction :=
  [.scannerGetDevices, .evalTargetMatch]

/-- Action trace of get_status: GPS query, then the optional debug sample, then
the three scanner state reads, and only then the session mutex, released before
returning. -/
def getStatusTrace (include_debug : Bool) : List LockAction :=
  [.queryGpsPosition] ++ (if include_debug then debugSampleTrace else []) ++
    [.scannerIsScanning, .scannerDeviceCount, .scannerCallbackCheck,
     .acquireSessionLock, .releaseSessionLock]

/-- Action trace of one record-detection call: GPS read, then the session mutex
held only around the trail/counter mutation, then the queue push. -/
def recordDetectionTrace : List LockAction :=
  [.queryGpsPosition, .acquireSessionLock, .releaseSessionLock, .queueEventPush]

/-- Action trace of one poll tick: scanner liveness check, optional backoff
restart, device query, match evaluation, and on a hit the record-detection path. -/
def pollTickTrace (restart found : Bool) : List LockAction :=
  [.scannerIsScanning] ++ (if restart then [.scannerStartScan] else []) ++
    [.scannerGetDevices, .evalTargetMatch] ++
    (if found then recordDetectionTrace else [])

/-- A trace keeps all scanner interaction strictly before the session mutex:
from the first mutex acquisition onward no scanner operation occurs. -/
def scannerBeforeSessionLock (tr : List LockAction) : Bool :=
  (tr.dropWhile (fun a => a != .acquireSessionLock)).all
    (fun a => !a.isScannerOp)

/-! ## Model validation -/

/-- Validation of the AES model against the FIPS-197 appendix C.1 vector. -/
theorem aes128_fips197_vector :
    aes128Encrypt
      [0x00, 0x01, 0x02, 0x03, 0x04, 0x05, 0x06, 0x07,
       0x08, 0x09, 0x0a, 0x0b, 0x0c, 0x0d, 0x0e, 0x0f]
      [0x00, 0x11, 0x22, 0x33, 0x44, 0x55, 0x66, 0x77,
       0x88, 0x99, 0xaa, 0xbb, 0xcc, 0xdd, 0xee, 0xff] =
      [0x69, 0xc4, 0xe0, 0xd8, 0x6a, 0x7b, 0x04, 0x30,
       0xd8, 0xcd, 0xb7, 0x80, 0x70, 0xb4, 0xc5, 0x5a] := by decide

/-- Validation of the AES model on the all-zero key and block. -/
theorem aes128_zero_vector :
    aes128Encrypt (List.replicate 16 0) (List.replicate 16 0) =
      [0x66, 0xe9, 0x4b, 0xd4, 0xef, 0x8a, 0x2c, 0x3b,
       0x88, 0x4c, 0xfa, 0x59, 0xca, 0x34, 0x2b, 0x2e] := by decide

example : normalize_mac (some "aa-bb-cc-dd-ee-ff".toList) = some "AA:BB:CC:DD:EE:FF".toList := by decide
example : normalize_mac (some "4ABBCCDDEEFF".toList) = some "4A:BB:CC:DD:EE:FF".toList := by decide
example : normalize_mac (some "7F".toList) = some "7F".toList := by decide
example : address_looks_like_rpa (some "4A:BB:CC:DD:EE:FF".toList) = true := by decide
example : address_looks_like_rpa (some "00:00:00:00:00:00".toList) = false := by decide
example : address_looks_like_rpa (some "8A:BB:CC:DD:EE:FF".toList) = false := by decide
example : address_looks_like_rpa (some "CA:BB:CC:DD:EE:FF".toList) = false := by decide
example : resolve_rpa (List.replicate 16 0) "ZZ:11".toList = .error () := by decide
example : resolve_rpa (List.replicate 15 0) "4A:BB:CC:DD:EE:FF".toList = .error () := by decide
example : resolve_rpa (List.replicate 16 0) "4A:BB:CC".toList = .ok false := by decide
example :
    LocateTarget.matches { mac_address := some "aa-bb-cc-dd-ee-ff".toList }
      { device_id := "x".toList, address := some "AA:BB:CC:DD:EE:FF".toList } none =
      .ok true := by decide
example :
    LocateTarget.matches { name_pattern := some "AirTag".toList }
      { device_id := "x".toList, name := some "Bobs airtag thing".toList } none =
      .ok true := by decide

/-! ## Helper lemmas -/

lemma trailAppend_of_lt (trail : List DetectionPoint) (p : DetectionPoint)
    (h : trail.length < MAX_TRAIL_POINTS) : trailAppend trail p = trail ++ [p] := by
  unfold trailAppend
  rw [if_neg]
  simp only [List.length_append, List.length_singleton]
  omega

lemma trailAppend_of_full (trail : List DetectionPoint) (p : DetectionPoint)
    (h : trail.length = MAX_TRAIL_POINTS) : trailAppend trail p = trail.drop 1 ++ [p] := by
  unfold trailAppend
  rw [if_pos]
  · have h1 : (trail ++ [p]).length - MAX_TRAIL_POINTS = 1 := by
      simp only [List.length_append, List.length_singleton, h]
      norm_num [MAX_TRAIL_POINTS]
    rw [h1, List.drop_append_of_le_length (by rw [h]; norm_num [MAX_TRAIL_POINTS])]
  · simp only [List.length_append, List.length_singleton, h]
    norm_num [MAX_TRAIL_POINTS]

lemma pySplitColon_ne_nil (t : List Char) : pySplitColon t ≠ [] := by
  induction t with
  | nil => simp [pySplitColon]
  | cons c rest ih =>
    by_cases hc : c = ':'
    · simp [pySplitColon, hc]
    · simp only [pySplitColon, if_neg hc]
      cases hsp : pySplitColon rest with
      | nil => exact absurd hsp ih
      | cons p ps => simp

lemma pySplitColon_headD (t : List Char) :
    (pySplitColon t).headD [] = takeBeforeColon t := by
  induction t with
  | nil => rfl
  | cons c rest ih =>
    by_cases hc : c = ':'
    · simp [pySplitColon, takeBeforeColon, hc]
    · simp only [pySplitColon, if_neg hc]
      cases hsp : pySplitColon rest with
      | nil => exact absurd hsp (pySplitColon_ne_nil rest)
      | cons p ps =>
        rw [hsp] at ih
        simp only [List.headD_cons] at ih
        simp only [List.headD_cons, takeBeforeColon, List.takeWhile_cons,
          show (c != ':') = true by simpa using hc, ih]
        rfl

lemma hexPair_pyIntHex :
    ∀ c1 ∈ HEX_UPPER, ∀ c2 ∈ HEX_UPPER,
      pyIntHex [c1, c2] = (hexDigitsVal [c1, c2]).map (fun n => (n : Int)) ∧
      (hexDigitsVal [c1, c2]).isSome = true ∧
      (hexDigitsVal [c1, c2]).getD 0 < 256 := by decide

lemma div64_testBit :
    ∀ v : Nat, v < 256 →
      (v / 64 = 1 ↔ (v.testBit 7 = false ∧ v.testBit 6 = true)) := by decide

lemma pyShiftRight_natCast (v : Nat) :
    pyShiftRight (v : Int) 6 = ((v / 64 : Nat) : Int) := by
  have h64 : (2 : Int) ^ 6 = ((64 : Nat) : Int) := by norm_num
  unfold pyShiftRight
  rw [h64, ← Int.ofNat_fdiv]

/-! ## Claim theorems -/

/-- Claim C6: after every recorded detection the trail holds at most 500 points,
and on a full 500-point trail the eviction is FIFO by identity: the retained
trail is the original minus its first point, with the new point, and only the
new point, appended at the tail. -/
theorem trail_cap_fifo (s : SessionState) (device : BTDeviceAggregate) (rssi : Int)
    (ts : List Char) (lat lon acc : Option ℚ) (rpa : Bool)
    (h : s.trail.length ≤ MAX_TRAIL_POINTS) :
    (recordDetection s device rssi ts lat lon acc rpa).trail.length ≤ MAX_TRAIL_POINTS ∧
    (s.trail.length = MAX_TRAIL_POINTS →
      (recordDetection s device rssi ts lat lon acc rpa).trail =
        s.trail.drop 1 ++ [mkDetectionPoint s rssi ts lat lon acc rpa] ∧
      (recordDetection s device rssi ts lat lon acc rpa).trail.getLast? =
        some (mkDetectionPoint s rssi ts lat lon acc rpa)) := by
  have htr : (recordDetection s device rssi ts lat lon acc rpa).trail =
      trailAppend s.trail (mkDetectionPoint s rssi ts lat lon acc rpa) := rfl
  rcases lt_or_eq_of_le h with hlt | heq
  · refine ⟨?_, fun hfull => absurd hfull (by omega)⟩
    rw [htr, trailAppend_of_lt _ _ hlt]
    simp only [List.length_append, List.length_singleton]
    omega
  · have hfifo := trailAppend_of_full s.trail
      (mkDetectionPoint s rssi ts lat lon acc rpa) heq
    refine ⟨?_, fun _ => ⟨by rw [htr, hfifo], ?_⟩⟩
    · rw [htr, hfifo]
      simp only [List.length_append, List.length_drop, List.length_singleton, heq]
      norm_num [MAX_TRAIL_POINTS]
    · rw [htr, hfifo, List.getLast?_append]
      rfl

/-- Witness for C6 at a concrete full trail of 500 distinct-by-position points. -/
theorem trail_cap_fifo_witness :
    (recordDetection
        { target := {}, environment := .OUTDOOR, estimator := { n := mkRat 11 5 },
          trail := List.replicate MAX_TRAIL_POINTS
            { timestamp := "t0".toList, rssi := -50, rssi_ema := -50,
              estimated_distance := 0, proximity_band := "NEAR" } }
        { device_id := "x".toList } (-55) "t1".toList none none none false).trail.length ≤
      MAX_TRAIL_POINTS ∧
    (recordDetection
        { target := {}, environment := .OUTDOOR, estimator := { n := mkRat 11 5 },
          trail := List.replicate MAX_TRAIL_POINTS
            { timestamp := "t0".toList, rssi := -50, rssi_ema := -50,
              estimated_distance := 0, proximity_band := "NEAR" } }
        { device_id := "x".toList } (-55) "t1".toList none none none false).trail =
      (List.replicate MAX_TRAIL_POINTS
          ({ timestamp := "t0".toList, rssi := -50, rssi_ema := -50,
             estimated_distance := 0, proximity_band := "NEAR" } : DetectionPoint)).drop 1 ++
        [mkDetectionPoint
          { target := {}, environment := .OUTDOOR, estimator := { n := mkRat 11 5 },
            trail := List.replicate MAX_TRAIL_POINTS
              { timestamp := "t0".toList, rssi := -50, rssi_ema := -50,
                estimated_distance := 0, proximity_band := "NEAR" } }
          (-55) "t1".toList none none none false] := by
  have h := trail_cap_fifo
    { target := {}, environment := .OUTDOOR, estimator := { n := mkRat 11 5 },
      trail := List.replicate MAX_TRAIL_POINTS
        { timestamp := "t0".toList, rssi := -50, rssi_ema := -50,
          estimated_distance := 0, proximity_band := "NEAR" } }
    { device_id := "x".toList } (-55) "t1".toList none none none false
    (by simp)
  exact ⟨h.1, (h.2 (by simp)).1⟩

/-- Claim C8: the bounded output queue push is drop-oldest-on-full and the push
is a total operation (modelled after put_nowait and get_nowait, which return
without waiting): below capacity the event is enqueued at the tail; at capacity
the oldest queued event is evicted and the new event is retained at the tail. -/
theorem queue_push_drop_oldest (q : List DetectionEvent) (e : DetectionEvent) :
    (q.length < EVENT_QUEUE_MAXSIZE → queuePushDropOldest q e = q ++ [e]) ∧
    (q.length = EVENT_QUEUE_MAXSIZE →
      queuePushDropOldest q e = q.drop 1 ++ [e] ∧
      (queuePushDropOldest q e).length = EVENT_QUEUE_MAXSIZE ∧
      (queuePushDropOldest q e).getLast? = some e) := by
  constructor
  · intro h
    unfold queuePushDropOldest
    rw [if_pos h]
  · intro h
    have hq : queuePushDropOldest q e = q.drop 1 ++ [e] := by
      unfold queuePushDropOldest
      rw [if_neg (by omega)]
    refine ⟨hq, ?_, ?_⟩
    · rw [hq]
      simp only [List.length_append, List.length_drop, List.length_singleton, h]
      norm_num [EVENT_QUEUE_MAXSIZE]
    · rw [hq, List.getLast?_append]
      rfl

/-- Witness for C8 at a concrete full queue. -/
theorem queue_push_drop_oldest_witness :
    queuePushDropOldest
        (List.replicate EVENT_QUEUE_MAXSIZE
          { data := { timestamp := "t0".toList, rssi := -50, rssi_ema := -50,
                      estimated_distance := 0, proximity_band := "NEAR" },
            device_name := none, device_address := none })
        { data := { timestamp := "t1".toList, rssi := -60, rssi_ema := -53,
                    estimated_distance := 0, proximity_band := "NEAR" },
          device_name := none, device_address := none } =
      (List.replicate EVENT_QUEUE_MAXSIZE
          ({ data := { timestamp := "t0".toList, rssi := -50, rssi_ema := -50,
                       estimated_distance := 0, proximity_band := "NEAR" },
             device_name := none, device_address := none } : DetectionEvent)).drop 1 ++
        [{ data := { timestamp := "t1".toList, rssi := -60, rssi_ema := -53,
                     estimated_distance := 0, proximity_band := "NEAR" },
           device_name := none, device_address := none }] := by
  exact ((queue_push_drop_oldest _ _).2 (by simp)).1

/-- Claim C9: both the status path and the poll/record path touch the external
scanner only strictly before acquiring the session mutex; from the acquisition
onward neither trace performs a scanner operation, so the two paths order the
scanner state and the session mutex identically and cannot form a circular
wait. -/
theorem lock_order_consistent (include_debug restart found : Bool) :
    scannerBeforeSessionLock (getStatusTrace include_debug) = true ∧
    scannerBeforeSessionLock (pollTickTrace restart found) = true := by
  cases include_debug <;> cases restart <;> cases found <;> exact ⟨rfl, rfl⟩

/-- Claim C10: clear_trail empties the trail and resets the detection counter
while leaving the last-detection timestamp, the poll and callback counters, the
RSSI EMA state, the environment and the estimator unchanged; hence the first
detection recorded after a clear still blends its EMA with the pre-clear
history. -/
theorem clear_trail_frame (s : SessionState) :
    (clearTrail s).trail = [] ∧
    (clearTrail s).detection_count = 0 ∧
    (clearTrail s).last_detection = s.last_detection ∧
    (clearTrail s).poll_count = s.poll_count ∧
    (clearTrail s).callback_call_count = s.callback_call_count ∧
    (clearTrail s).rssi_ema = s.rssi_ema ∧
    (clearTrail s).environment = s.environment ∧
    (clearTrail s).estimator = s.estimator ∧
    (∀ (e : ℚ) (device : BTDeviceAggregate) (rssi : Int) (ts : List Char)
        (lat lon acc : Option ℚ) (rpa : Bool), s.rssi_ema = some e →
      (recordDetection (clearTrail s) device rssi ts lat lon acc rpa).rssi_ema =
        some (EMA_ALPHA * (rssi : ℚ) + (1 - EMA_ALPHA) * e)) := by
  refine ⟨rfl, rfl, rfl, rfl, rfl, rfl, rfl, rfl, ?_⟩
  intro e device rssi ts lat lon acc rpa he
  simp only [recordDetection, clearTrail, emaNext, he]

/-- Witness for C10 at a concrete session with pre-clear EMA history. -/
theorem clear_trail_frame_witness :
    (recordDetection
        (clearTrail
          { target := {}, environment := .OUTDOOR, estimator := { n := mkRat 11 5 },
            rssi_ema := some (-50), detection_count := 7, poll_count := 3 })
        { device_id := "x".toList } (-40) "t2".toList none none none false).rssi_ema =
      some (EMA_ALPHA * ((-40 : Int) : ℚ) + (1 - EMA_ALPHA) * (-50)) ∧
    (clearTrail
        { target := {}, environment := .OUTDOOR, estimator := { n := mkRat 11 5 },
          rssi_ema := some (-50), detection_count := 7, poll_count := 3 }).detection_count = 0 ∧
    (clearTrail
        { target := {}, environment := .OUTDOOR, estimator := { n := mkRat 11 5 },
          rssi_ema := some (-50), detection_count := 7, poll_count := 3 }).poll_count = 3 := by
  have h := clear_trail_frame
    { target := {}, environment := .OUTDOOR, estimator := { n := mkRat 11 5 },
      rssi_ema := some (-50), detection_count := 7, poll_count := 3 }
  exact ⟨h.2.2.2.2.2.2.2.2 (-50) { device_id := "x".toList } (-40) "t2".toList
    none none none false rfl, h.2.1, h.2.2.2.1⟩

/-- Counterexample for C3: the constructor accepts environment CUSTOM with no
custom exponent (and with a negative one), producing an active-session
estimator whose exponent is not strictly positive. -/
theorem custom_env_not_rejected :
    (sessionInit {} Environment.CUSTOM none none none).estimator.n = 0 ∧
    ¬ 0 < (sessionInit {} Environment.CUSTOM none none none).estimator.n ∧
    (sessionInit {} Environment.CUSTOM (some (-2)) none none).estimator.n = -2 := by
  refine ⟨rfl, by norm_num [sessionInit, initPathLossExponent, Environment.value], ?_⟩
  show initPathLossExponent Environment.CUSTOM (some (-2)) = -2
  norm_num [initPathLossExponent]

/-- Claim C3 (amended): session construction never rejects a configuration.
With CUSTOM and an absent or zero custom exponent the path-loss exponent
silently defaults to the CUSTOM enum value zero; a nonzero custom exponent,
even a negative one, is adopted as-is; only the non-CUSTOM presets guarantee a
strictly positive exponent; the estimator compensates for a non-positive
exponent by reporting distance zero. -/
theorem session_exponent_amended (t : LocateTarget) (environment : Environment)
    (custom_exponent : Option ℚ) (fl fo : Option ℚ) :
    ((environment = Environment.CUSTOM ∧
        (custom_exponent = none ∨ custom_exponent = some 0)) →
      (sessionInit t environment custom_exponent fl fo).estimator.n = 0) ∧
    (∀ c : ℚ, c ≠ 0 →
      (sessionInit t Environment.CUSTOM (some c) fl fo).estimator.n = c) ∧
    (environment ≠ Environment.CUSTOM →
      (sessionInit t environment custom_exponent fl fo).estimator.n =
        environment.value ∧
      0 < (sessionInit t environment custom_exponent fl fo).estimator.n) ∧
    ((sessionInit t environment custom_exponent fl fo).estimator.n ≤ 0 →
      ∀ rssi : Int,
        (sessionInit t environment custom_exponent fl fo).estimator.estimate rssi = 0) := by
  refine ⟨?_, ?_, ?_, ?_⟩
  · rintro ⟨henv, hc | hc⟩ <;> subst henv <;> subst hc <;>
      simp [sessionInit, initPathLossExponent, Environment.value]
  · intro c hc
    show initPathLossExponent Environment.CUSTOM (some c) = c
    simp [initPathLossExponent, hc]
  · intro henv
    have hval : (sessionInit t environment custom_exponent fl fo).estimator.n =
        environment.value := by
      show initPathLossExponent environment custom_exponent = environment.value
      cases custom_exponent with
      | none => rfl
      | some c => simp [initPathLossExponent, henv]
    refine ⟨hval, ?_⟩
    rw [hval]
    cases environment with
    | CUSTOM => exact absurd rfl henv
    | FREE_SPACE => norm_num [Environment.value]
    | INDOOR => norm_num [Environment.value]
    | OUTDOOR =>
      norm_num [Environment.value, Rat.mkRat_eq_divInt, Rat.divInt_eq_div]
  · intro hn rssi
    unfold DistanceEstimator.estimate
    rw [if_pos (Or.inr hn)]

/-- Witness for C3 (amended) at the CUSTOM-without-exponent configuration. -/
theorem session_exponent_amended_witness :
    (sessionInit {} Environment.CUSTOM none none none).estimator.n = 0 ∧
    (sessionInit {} Environment.CUSTOM none none none).estimator.estimate (-80) = 0 ∧
    (sessionInit {} Environment.INDOOR none none none).estimator.n = 3 := by
  have h := session_exponent_amended {} Environment.CUSTOM none none none
  have h2 := session_exponent_amended {} Environment.INDOOR none none none
  refine ⟨h.1 ⟨rfl, Or.inl rfl⟩, ?_, (h2.2.2.1 (by simp)).1⟩
  exact h.2.2.2 (le_of_eq (h.1 ⟨rfl, Or.inl rfl⟩)) (-80)

/-- Claim C7: estimate returns zero for non-negative RSSI or a non-positive
exponent; with the default model the reference RSSI maps to exactly one meter;
and for a fixed positive exponent the estimated distance is strictly antitone
in RSSI over negative RSSI values. -/
theorem estimate_spec :
    (∀ (est : DistanceEstimator) (rssi : Int),
      0 ≤ rssi ∨ est.n ≤ 0 → est.estimate rssi = 0) ∧
    DistanceEstimator.estimate { n := 2 } (-59) = 1 ∧
    (∀ (est : DistanceEstimator) (r₁ r₂ : Int), 0 < est.n → r₁ < r₂ → r₂ < 0 →
      est.estimate r₂ < est.estimate r₁) := by
  refine ⟨?_, ?_, ?_⟩
  · intro est rssi h
    unfold DistanceEstimator.estimate
    rw [if_pos h]
  · unfold DistanceEstimator.estimate
    rw [if_neg (by norm_num)]
    norm_num
  · intro est r₁ r₂ hn h12 h20
    have hnr : (0 : ℝ) < (est.n : ℝ) := by exact_mod_cast hn
    have hne2 : ¬ (0 ≤ r₂ ∨ est.n ≤ 0) := by
      push_neg
      exact ⟨by omega, hn⟩
    have hne1 : ¬ (0 ≤ r₁ ∨ est.n ≤ 0) := by
      push_neg
      exact ⟨by omega, hn⟩
    unfold DistanceEstimator.estimate
    rw [if_neg hne2, if_neg hne1,
      Real.rpow_lt_rpow_left_iff (by norm_num),
      div_lt_div_iff_of_pos_right (by positivity)]
    exact_mod_cast sub_lt_sub_left h12 est.rssi_at_1m

/-- Witness for C7 at the default model. -/
theorem estimate_spec_witness :
    DistanceEstimator.estimate { n := 2 } 0 = 0 ∧
    DistanceEstimator.estimate { n := 2 } (-59) = 1 ∧
    DistanceEstimator.estimate { n := 2 } (-60) <
      DistanceEstimator.estimate { n := 2 } (-70) := by
  refine ⟨estimate_spec.1 { n := 2 } 0 (Or.inl le_rfl), estimate_spec.2.1, ?_⟩
  exact estimate_spec.2.2 { n := 2 } (-70) (-60) (by norm_num) (by norm_num) (by norm_num)

/-- Counterexample for C1: with the all-zero IRK and an address whose low three
octets equal the low three AES output bytes for its upper three octets, the
hash condition of the claim holds, yet resolve_rpa returns false because the
address fails the resolvable-address bit check that the code applies first. -/
theorem resolve_rpa_hash_not_sufficient :
    resolve_rpa (List.replicate 16 0) "00:00:00:34:2B:2E".toList = .ok false ∧
    ((aes128Encrypt (List.replicate 16 0)
        (List.replicate 13 0 ++ [0x00, 0x00, 0x00])).drop 13).take 3 =
      [0x34, 0x2B, 0x2E] := by decide

/-- Claim C1 (amended): for a 16-byte IRK and an address that decodes to exactly
six bytes, resolve_rpa returns true iff the address additionally passes the
RPA bit check (top two bits of the first octet equal binary 01) and the low
three AES-128 output bytes over thirteen zero bytes followed by prand equal the
hash octets; on such inputs it always returns a boolean (never an error), and
being a pure function of its arguments it is deterministic. -/
theorem resolve_rpa_amended (irk : List Nat) (address : List Char) (ab : List Nat)
    (h16 : irk.length = 16)
    (hdec : bytesFromHex (address.filter (fun c => !(c == ':' || c == '-'))) = some ab)
    (h6 : ab.length = 6) :
    (resolve_rpa irk address = .ok true ↔
      ((ab.getD 0 0) >>> 6 = 1 ∧
        ((aes128Encrypt irk (List.replicate 13 0 ++ ab.take 3)).drop 13).take 3 =
          ab.drop 3)) ∧
    ∃ b : Bool, resolve_rpa irk address = .ok b := by
  unfold resolve_rpa
  rw [hdec]
  dsimp only
  by_cases hbit : (ab.getD 0 0) >>> 6 = 1
  · rw [if_neg (fun h => h h6), if_neg (fun h => h hbit), if_neg (fun h => h h16)]
    refine ⟨?_, ⟨_, rfl⟩⟩
    constructor
    · intro hok
      exact ⟨hbit, eq_of_beq (Except.ok.inj hok)⟩
    · rintro ⟨-, hhash⟩
      rw [beq_iff_eq.mpr hhash]
  · rw [if_neg (fun h => h h6), if_pos hbit]
    refine ⟨?_, ⟨_, rfl⟩⟩
    constructor
    · intro hok
      exact absurd (Except.ok.inj hok) Bool.false_ne_true
    · rintro ⟨hb, -⟩
      exact absurd hb hbit

/-- Witness for C1 (amended) at the all-zero IRK and a six-byte address. -/
theorem resolve_rpa_amended_witness :
    (resolve_rpa (List.replicate 16 0) "4A:BB:CC:DD:EE:FF".toList = .ok true ↔
      ((([0x4A, 0xBB, 0xCC, 0xDD, 0xEE, 0xFF] : List Nat).getD 0 0) >>> 6 = 1 ∧
        ((aes128Encrypt (List.replicate 16 0)
            (List.replicate 13 0 ++
              ([0x4A, 0xBB, 0xCC, 0xDD, 0xEE, 0xFF] : List Nat).take 3)).drop 13).take 3 =
          ([0x4A, 0xBB, 0xCC, 0xDD, 0xEE, 0xFF] : List Nat).drop 3)) ∧
    ∃ b : Bool, resolve_rpa (List.replicate 16 0) "4A:BB:CC:DD:EE:FF".toList = .ok b :=
  resolve_rpa_amended (List.replicate 16 0) "4A:BB:CC:DD:EE:FF".toList
    [0x4A, 0xBB, 0xCC, 0xDD, 0xEE, 0xFF] (by decide) (by decide) (by decide)

/-- Counterexample for C4: the input 7F cannot be normalized to six hex octets
(the normalizer returns the cleaned original, which is not in strict MAC form),
yet the RPA shape classifier returns true for it, because the classifier only
parses the leading colon-separated chunk of whatever the normalizer returned. -/
theorem rpa_shape_nonstrict_true :
    address_looks_like_rpa (some "7F".toList) = true ∧
    normalize_mac (some "7F".toList) = some "7F".toList ∧
    strictMacParts (pySplitColon "7F".toList) = false := by decide

/-- Claim C4 (amended): for every address whose normalization yields a strict
six-octet colon-separated uppercase MAC, the classifier returns true iff the
top two bits of the first octet equal binary 01; an input whose normalization
is not in strict six-octet form may still classify as true when the leading
chunk of the cleaned text parses as hex with its shifted value equal to one. -/
theorem rpa_shape_amended (s t : List Char) (v : Nat)
    (h1 : normalize_mac (some s) = some t)
    (h2 : strictMacParts (pySplitColon t) = true)
    (h3 : hexDigitsVal (takeBeforeColon t) = some v) :
    (address_looks_like_rpa (some s) = true ↔
      (v.testBit 7 = false ∧ v.testBit 6 = true)) := by
  obtain ⟨p, ps, hps⟩ : ∃ p ps, pySplitColon t = p :: ps := by
    cases hsp : pySplitColon t with
    | nil => exact absurd hsp (pySplitColon_ne_nil t)
    | cons p ps => exact ⟨p, ps, rfl⟩
  have hhead : p = takeBeforeColon t := by
    have hh := pySplitColon_headD t
    rw [hps] at hh
    simpa using hh
  rw [strictMacParts, hps, Bool.and_eq_true] at h2
  obtain ⟨-, hall⟩ := h2
  have hp := (List.all_eq_true.mp hall) p (List.mem_cons_self p ps)
  rw [Bool.and_eq_true] at hp
  obtain ⟨hplen, hphex⟩ := hp
  have hplen2 : p.length = 2 := of_decide_eq_true hplen
  obtain ⟨c1, c2, hc12⟩ := List.length_eq_two.mp hplen2
  have hc1 : c1 ∈ HEX_UPPER := by
    have := (List.all_eq_true.mp hphex) c1 (by rw [hc12]; exact List.mem_cons_self c1 [c2])
    exact of_decide_eq_true this
  have hc2 : c2 ∈ HEX_UPPER := by
    have := (List.all_eq_true.mp hphex) c2
      (by rw [hc12]; exact List.mem_cons_of_mem _ (List.mem_cons_self c2 []))
    exact of_decide_eq_true this
  have hpair := hexPair_pyIntHex c1 hc1 c2 hc2
  have htbc : takeBeforeColon t = [c1, c2] := by rw [← hhead, hc12]
  have hpyint : pyIntHex (takeBeforeColon t) = some ((v : Int)) := by
    rw [htbc, hpair.1]
    rw [htbc] at h3
    rw [h3]
    rfl
  have hv256 : v < 256 := by
    have := hpair.2.2
    rw [← htbc, h3] at this
    simpa using this
  have htne : t ≠ [] := by
    intro ht
    rw [ht] at htbc
    exact absurd htbc.symm (List.cons_ne_nil c1 [c2])
  have hshape : address_looks_like_rpa (some s) =
      decide (pyShiftRight ((v : Int)) 6 = 1) := by
    unfold address_looks_like_rpa
    rw [h1]
    dsimp only
    rw [if_neg htne, hpyint]
  rw [hshape, decide_eq_true_iff, pyShiftRight_natCast,
    show (1 : Int) = ((1 : Nat) : Int) from rfl, Nat.cast_inj]
  exact div64_testBit v hv256

/-- Witness for C4 (amended) on a strict six-octet resolvable address. -/
theorem rpa_shape_amended_witness :
    address_looks_like_rpa (some "4A:BB:CC:DD:EE:FF".toList) = true :=
  (rpa_shape_amended "4A:BB:CC:DD:EE:FF".toList "4A:BB:CC:DD:EE:FF".toList 0x4A
    (by decide) (by decide) (by decide)).mpr (by decide)

/-- Theorem for the C2 code bug: resolve_rpa propagates a ValueError instead of
failing closed, both for an address whose hex decoding fails (with a valid
16-byte IRK) and for a wrong-length IRK combined with a well-formed resolvable
address; a wrong-length IRK whose address already failed the earlier checks
still returns false. -/
theorem resolve_rpa_raises :
    resolve_rpa (List.replicate 16 0) "4A:GG:CC:DD:EE:FF".toList = .error () ∧
    resolve_rpa (List.replicate 15 0) "4A:BB:CC:DD:EE:FF".toList = .error () ∧
    resolve_rpa (List.replicate 15 0) "00:00:00:00:00:00".toList = .ok false := by decide

/-- Claim C5: when the target and observed device agree on a truthy payload
fingerprint and no higher-precedence rule (device key, device id, device-id
address portion, MAC) fires, the match succeeds iff the fingerprint stability
is at least 0.35 or the target carries a strong identifier (device id, device
key, MAC, or known name); with stability below 0.35, no strong identifier, and
no lower-precedence rule firing, the match fails. -/
theorem fingerprint_match_gating (t : LocateTarget) (d : BTDeviceAggregate)
    (irk_bytes : Option (List Nat)) (f : List Char)
    (htf : t.fingerprint_id = some f) (hne : f ≠ [])
    (hdf : d.payload_fingerprint_id = some f)
    (h1 : matchDeviceKey t d = false) (h2 : matchDeviceId t d = false)
    (h3 : matchDeviceIdAddr t d = false) (h4 : matchMac t d = false) :
    ((FP_STABILITY_THRESHOLD ≤ d.payload_fingerprint_stability.getD 0 ∨
        strongIdentifier t = true) →
      t.matches d irk_bytes = .ok true) ∧
    ((d.payload_fingerprint_stability.getD 0 < FP_STABILITY_THRESHOLD ∧
        strongIdentifier t = false ∧ matchIrk t d irk_bytes = Except.ok false ∧
        matchName t d = false ∧ matchKnownName t d = false) →
      t.matches d irk_bytes = .ok false) := by
  have hf
      : ∀ g : Bool,
        (decide (FP_STABILITY_THRESHOLD ≤ d.payload_fingerprint_stability.getD 0) ||
          strongIdentifier t) = g →
        matchFingerprint t d = g := by
    intro g hg
    unfold matchFingerprint
    rw [htf, hdf]
    simp only [pyTruthy, List.isEmpty_eq_true, hne, Option.some.injEq]
    simp [hg, hne]
  constructor
  · intro hgate
    have hfp : matchFingerprint t d = true := by
      apply hf
      rcases hgate with hstab | hstrong
      · rw [decide_eq_true hstab, Bool.true_or]
      · rw [hstrong, Bool.or_true]
    unfold LocateTarget.matches
    rw [h1, h2, h3, h4, hfp]
    rfl
  · rintro ⟨hstab, hstrong, hirk, hname, hknown⟩
    have hfp : matchFingerprint t d = false := by
      apply hf
      rw [decide_eq_false (not_le.mpr hstab), hstrong]
      rfl
    unfold LocateTarget.matches
    rw [h1, h2, h3, h4, hfp, hirk, hname, hknown]
    rfl

/-- Witness for C5: a device with fingerprint stability 0.2 fails to match a
fingerprint-only target, but matches as soon as the target also carries a
known name, even a non-matching one. -/
theorem fingerprint_match_gating_witness :
    LocateTarget.matches
        { fingerprint_id := some "fp1".toList, known_name := some "Tile".toList }
        { device_id := "x".toList, payload_fingerprint_id := some "fp1".toList,
          payload_fingerprint_stability := some (mkRat 1 5) } none = .ok true ∧
    LocateTarget.matches { fingerprint_id := some "fp1".toList }
        { device_id := "x".toList, payload_fingerprint_id := some "fp1".toList,
          payload_fingerprint_stability := some (mkRat 1 5) } none = .ok false := by
  constructor
  · exact (fingerprint_match_gating
      { fingerprint_id := some "fp1".toList, known_name := some "Tile".toList }
      { device_id := "x".toList, payload_fingerprint_id := some "fp1".toList,
        payload_fingerprint_stability := some (mkRat 1 5) } none "fp1".toList
      rfl (by decide) rfl (by decide) (by decide) (by decide) (by decide)).1
      (Or.inr (by decide))
  · exact (fingerprint_match_gating { fingerprint_id := some "fp1".toList }
      { device_id := "x".toList, payload_fingerprint_id := some "fp1".toList,
        payload_fingerprint_stability := some (mkRat 1 5) } none "fp1".toList
      rfl (by decide) rfl (by decide) (by decide) (by decide) (by decide)).2
      ⟨by decide, by decide, by decide, by decide, by decide⟩
